import Mathlib

/-!  Shallow embedding of the call-center backend (server.js, routes/webhook.js,
routes/inboundWebhook.js, db/callLogs.js, db/subscriptions.js).  JavaScript
strings stay strings; absent string fields are encoded as `""` (the falsy
value the source tests with `||` and truthiness checks); absent objects are
`Option`; `Date` values are milliseconds since the epoch (`Nat`).  -/

/-- Monitor object attached to a call by the voice provider (`call.monitor`);
its `controlUrl` may itself be absent. -/
structure Monitor where
  controlUrl : Option String
deriving DecidableEq

/-- In-memory call record as stored in `callLogsMap` (server.js).  Fields that
every handler only copies through and never reads (orgId, phoneNumberId, type,
the createdAt/updatedAt ISO strings) are omitted; string fields the source
tests with `||` encode absence as `""`. -/
structure CallRecord where
  id : String
  direction : String
  status : String
  user_email : String
  monitor : Option Monitor
  startTime : Nat
  endTime : Option Nat
  duration : Int
  fromNumber : String
  customerNumber : String
  agentId : String
  assistantId : String
  notes : String
deriving DecidableEq

/-- Truthiness of `call.monitor?.controlUrl` as the handlers test it. -/
def CallRecord.hasControlUrl (c : CallRecord) : Bool :=
  match c.monitor with
  | some m =>
    match m.controlUrl with
    | some u => u != ""
    | none => false
  | none => false

/-- Value of `call.monitor?.controlUrl` when it is truthy. -/
def CallRecord.controlUrlVal (c : CallRecord) : Option String :=
  match c.monitor with
  | some m =>
    match m.controlUrl with
    | some u => if u == "" then none else some u
    | none => none
  | none => none

/-- JavaScript `String.prototype.toLowerCase()` as applied to the ASCII role
strings the source compares (`req.user.role.toLowerCase() === "admin"`). -/
def jsToLower (s : String) : String := String.mk (s.data.map Char.toLower)

/-- Registry lookup `callLogsMap.get(id)`; the map is modelled as its list of
values in insertion order. -/
def mapGet (reg : List CallRecord) (i : String) : Option CallRecord :=
  reg.find? (fun c => c.id == i)

/-- Replace the first record whose id matches `c.id` (the slot an existing
`Map` key, or a `findIndex` result, designates). -/
def replaceFirstById (reg : List CallRecord) (c : CallRecord) : List CallRecord :=
  match reg with
  | [] => []
  | r :: rs => if r.id == c.id then c :: rs else r :: replaceFirstById rs c

/-- Map mutation `callLogsMap.set(id, call)`: update in place when the key
exists, otherwise append (a JS `Map` keeps insertion order). -/
def mapSet (reg : List CallRecord) (c : CallRecord) : List CallRecord :=
  if reg.any (fun r => r.id == c.id) then replaceFirstById reg c else reg ++ [c]

/-- Upsert used by the webhook handlers: `findIndex` then index assignment,
else `unshift` (routes/inboundWebhook.js lines 89-96 and the old server.js
`/webhook`). -/
def jsUpsertUnshift (reg : List CallRecord) (c : CallRecord) : List CallRecord :=
  if reg.any (fun r => r.id == c.id) then replaceFirstById reg c else c :: reg

/-- Count taken by `updateActiveCalls()`: records with status "ongoing". -/
def ongoingCount (reg : List CallRecord) : Nat :=
  reg.countP (fun c => c.status == "ongoing")

/-- Socket.io emissions performed by the broadcaster helpers. -/
inductive Emit where
  | callUpdate (c : CallRecord)
  | activeCalls (n : Nat)
deriving DecidableEq

/-- Emission produced by `updateActiveCalls()` on a given registry state. -/
def updateActiveCallsEmit (reg : List CallRecord) : Emit :=
  Emit.activeCalls (ongoingCount reg)

/-- Whether an emission is an `activeCalls` count broadcast. -/
def Emit.isCountEmit : Emit → Bool
  | Emit.activeCalls _ => true
  | Emit.callUpdate _ => false

/-- Row of the `call_logs` table (the columns the code reads and writes; the
`created_at` and `updated_at` housekeeping columns are omitted). -/
structure CallLogRow where
  call_id : String
  user_email : String
  direction : String
  phone_number : String
  status : String
  start_time : Nat
  duration : Int
  agent_id : Option String
  notes : Option String
deriving DecidableEq

/-- JavaScript `x || null` applied to an optional string column value. -/
def jsOrNull (o : Option String) : Option String :=
  match o with
  | some s => if s == "" then none else some s
  | none => none

/-- Upsert of db/callLogs.js `saveCallLog` (src/unnamed/part_006 lines 11-54):
no-op without a `call_id`; `UPDATE ... WHERE call_id = ?` first, `INSERT` only
when no row was affected.  The fire-and-forget GoHighLevel sync never touches
the table and is not modelled. -/
def saveCallLog (db : List CallLogRow) (d : CallLogRow) : List CallLogRow :=
  if d.call_id == "" then db
  else if db.any (fun r => r.call_id == d.call_id) then
    db.map (fun r => if r.call_id == d.call_id then
      { r with direction := d.direction, user_email := d.user_email,
               phone_number := d.phone_number, status := d.status,
               start_time := d.start_time, duration := d.duration,
               agent_id := jsOrNull d.agent_id, notes := jsOrNull d.notes }
      else r)
  else db ++ [{ d with agent_id := jsOrNull d.agent_id, notes := jsOrNull d.notes }]

/-- Row of the `subscriptions` table (columns the code touches). -/
structure SubRow where
  email : String
  subscription_id : String
  plan : String
  status : String
  price : Rat
  expiry_date : Option Nat
  stripe_event_id : String
deriving DecidableEq

/-- Argument object of `saveSubscriptionToDb`. -/
structure SubscriptionData where
  email : String
  subscriptionId : String
  plan : String
  status : String
  price : Rat
  stripeEventId : String
  expiryDate : Option Nat
deriving DecidableEq

/-- db/subscriptions.js `saveSubscriptionToDb` (src/unnamed/part_004 lines
19-104): return unchanged when a row already carries this (truthy) Stripe
event id; otherwise `UPDATE ... WHERE email = ?` when any row has the email,
else `INSERT`.  GHL sync omitted as above. -/
def saveSubscriptionToDb (db : List SubRow) (d : SubscriptionData) : List SubRow :=
  if d.stripeEventId != "" && db.any (fun r => r.stripe_event_id == d.stripeEventId) then
    db
  else if db.any (fun r => r.email == d.email) then
    db.map (fun r => if r.email == d.email then
      { r with subscription_id := d.subscriptionId, plan := d.plan,
               status := d.status, price := d.price, expiry_date := d.expiryDate,
               stripe_event_id := d.stripeEventId }
      else r)
  else db ++ [{ email := d.email, subscription_id := d.subscriptionId,
                plan := d.plan, status := d.status, price := d.price,
                expiry_date := d.expiryDate, stripe_event_id := d.stripeEventId }]

/-- Outcome of one HTTP call-control handler: HTTP status code, resulting
registry, rows passed to `saveCallLog`, socket emissions in program order. -/
structure HandlerResult where
  status : Nat
  reg : List CallRecord
  writes : List CallLogRow
  emits : List Emit
deriving DecidableEq

/-- Fields of the voice-provider response to `POST /call/phone` that the start
handler reads (`response.data`). -/
structure VapiStartResponse where
  id : String
  status : String
  createdAt : Option Nat
  customerNumber : String
  assistantId : String
  monitor : Option Monitor
deriving DecidableEq

/-- Record built by `POST /api/calls/start` (server.js lines 202-221). -/
def startRecord (resp : VapiStartResponse) (userEmail : String) (now : Nat) : CallRecord :=
  { id := resp.id
    direction := "outbound"
    status := if resp.status == "" then "queued" else resp.status
    user_email := userEmail
    monitor := resp.monitor
    startTime := resp.createdAt.getD now
    endTime := none
    duration := 0
    fromNumber := resp.customerNumber
    customerNumber := resp.customerNumber
    agentId := ""
    assistantId := resp.assistantId
    notes := "" }

/-- Success path of `POST /api/calls/start` (server.js lines 185-232): the
provider accepted the call; the handler registers the record and notifies
subscribers.  The `updateActiveCalls()` call is commented out on this path
(line 224). -/
def startCall (resp : VapiStartResponse) (userEmail : String) (now : Nat)
    (reg : List CallRecord) : HandlerResult :=
  let newCall := startRecord resp userEmail now
  { status := 200, reg := mapSet reg newCall, writes := [],
    emits := [Emit.callUpdate newCall] }

/-- Handler for `POST /api/calls/answer/:callId` (server.js lines 293-326).
`dispatchOk` is whether the axios POST to the control URL succeeds; the caller
identity is read only for logging (the permission check is commented out). -/
def answerCall (userEmail userRole : String) (callId : String) (dispatchOk : Bool)
    (reg : List CallRecord) : HandlerResult :=
  match mapGet reg callId with
  | none => { status := 404, reg := reg, writes := [], emits := [] }
  | some call =>
    if call.direction != "inbound" then
      { status := 400, reg := reg, writes := [], emits := [] }
    else if call.status != "ringing" then
      { status := 400, reg := reg, writes := [], emits := [] }
    else if !call.hasControlUrl then
      { status := 404, reg := reg, writes := [], emits := [] }
    else if !dispatchOk then
      { status := 500, reg := reg, writes := [], emits := [] }
    else
      let call' := { call with status := "answering" }
      { status := 200, reg := mapSet reg call', writes := [],
        emits := [Emit.callUpdate call'] }

/-- Handler for `POST /api/calls/reject/:callId` (server.js lines 329-357);
identical shape to answer with the intermediate status "rejecting". -/
def rejectCall (userEmail userRole : String) (callId : String) (dispatchOk : Bool)
    (reg : List CallRecord) : HandlerResult :=
  match mapGet reg callId with
  | none => { status := 404, reg := reg, writes := [], emits := [] }
  | some call =>
    if call.direction != "inbound" then
      { status := 400, reg := reg, writes := [], emits := [] }
    else if call.status != "ringing" then
      { status := 400, reg := reg, writes := [], emits := [] }
    else if !call.hasControlUrl then
      { status := 404, reg := reg, writes := [], emits := [] }
    else if !dispatchOk then
      { status := 500, reg := reg, writes := [], emits := [] }
    else
      let call' := { call with status := "rejecting" }
      { status := 200, reg := mapSet reg call', writes := [],
        emits := [Emit.callUpdate call'] }

/-- Handler for `POST /api/calls/end/:callId` (server.js lines 360-472).
`dispatchOk` is the outcome of the axios POST to the control URL (attempted
only when one is present; any failure, including "already ended", falls
through to the local fallback); `dbOk` is the outcome of the fallback
`saveCallLog` database call, which decides the 200/500 response only. -/
def endCall (userEmail userRole : String) (callId : String)
    (dispatchOk dbOk : Bool) (now : Nat) (reg : List CallRecord) : HandlerResult :=
  match mapGet reg callId with
  | none => { status := 404, reg := reg, writes := [], emits := [] }
  | some call =>
    if call.user_email != userEmail && jsToLower userRole != "admin" then
      { status := 403, reg := reg, writes := [], emits := [] }
    else if call.status == "completed" || call.status == "ended" then
      { status := 200, reg := reg, writes := [], emits := [] }
    else if call.hasControlUrl && dispatchOk then
      let call' := { call with status := "ending" }
      { status := 200, reg := mapSet reg call', writes := [],
        emits := [Emit.callUpdate call'] }
    else
      let dur : Int := ((now : Int) - (call.startTime : Int)).fdiv 1000
      let call' := { call with status := "completed", duration := dur, endTime := some now }
      let reg' := mapSet reg call'
      let row : CallLogRow :=
        { call_id := call'.id
          user_email := if call'.user_email != "" then call'.user_email else userEmail
          direction := call'.direction
          phone_number := if call'.fromNumber != "" then call'.fromNumber
            else if call'.customerNumber != "" then call'.customerNumber else "N/A"
          status := call'.status
          start_time := call'.startTime
          duration := dur
          agent_id := if call'.agentId != "" then some call'.agentId
            else if call'.assistantId != "" then some call'.assistantId else none
          notes := if call'.notes != "" then some call'.notes else none }
      { status := if dbOk then 200 else 500, reg := reg', writes := [row],
        emits := [updateActiveCallsEmit reg', Emit.callUpdate call'] }

/-- Handler for `GET /api/calls` (server.js lines 156-169): sort the map
values most-recently-started first (a stable sort under the comparator
`new Date(b.startTime) - new Date(a.startTime)`); admins see everything,
other callers only records carrying their email. -/
def getCalls (reg : List CallRecord) (email role : String) : List CallRecord :=
  let allLogs := reg.mergeSort (fun a b => decide (b.startTime ≤ a.startTime))
  if jsToLower role == "admin" then allLogs
  else allLogs.filter (fun c => c.user_email == email)

/-- Call object carried by a voice-provider webhook event; string fields
encode absence as `""`, `monitor` is absent unless delivered. -/
structure CallEvent where
  id : String
  direction : String
  customerNumber : String
  createdAt : Option Nat
  status : String
  duration : Option Int
  monitor : Option Monitor
deriving DecidableEq

/-- HTTP response of a webhook endpoint: status code and whether the JSON
body was `{received: true}`. -/
structure WebhookResponse where
  status : Nat
  received : Bool
deriving DecidableEq

/-- Request body of `POST /webhook/inbound`: the handler takes
`req.body.data.object`, else `req.body.call`. -/
structure InboundBody where
  dataObject : Option CallEvent
  call : Option CallEvent
deriving DecidableEq

/-- Outcome of the inbound webhook: response, registry, call-log table, rows
passed to `saveCallLog`, emissions. -/
structure InboundResult where
  resp : WebhookResponse
  reg : List CallRecord
  db : List CallLogRow
  writes : List CallLogRow
  emits : List Emit
deriving DecidableEq

/-- Record built by routes/inboundWebhook.js lines 75-84.  Note that it
carries no `monitor`, `customer`, `endTime`, `agentId`, `assistantId` or
`notes` fields at all, hence the absence encodings. -/
def inboundWebhookRecord (ev : CallEvent) (now : Nat) : CallRecord :=
  { id := ev.id
    direction := ev.direction
    status := ev.status
    user_email := "N/A"
    monitor := none
    startTime := ev.createdAt.getD now
    endTime := none
    duration := ev.duration.getD 0
    fromNumber := if ev.customerNumber != "" then ev.customerNumber else "N/A"
    customerNumber := ""
    agentId := ""
    assistantId := ""
    notes := "" }

/-- Handler for `POST /webhook/inbound` (routes/inboundWebhook.js lines
57-125).  `saveThrows` models the `saveCallLog` database call rejecting; the
surrounding catch swallows the error. -/
def inboundWebhook (body : InboundBody) (now : Nat) (saveThrows : Bool)
    (reg : List CallRecord) (db : List CallLogRow) : InboundResult :=
  match body.dataObject.or body.call with
  | none =>
    { resp := { status := 400, received := false }, reg := reg, db := db,
      writes := [], emits := [] }
  | some ev =>
    let newCall := inboundWebhookRecord ev now
    let reg' := jsUpsertUnshift reg newCall
    let row : CallLogRow :=
      { call_id := newCall.id, user_email := newCall.user_email,
        direction := newCall.direction, phone_number := newCall.fromNumber,
        status := newCall.status, start_time := newCall.startTime,
        duration := newCall.duration, agent_id := none, notes := none }
    { resp := { status := 200, received := true }, reg := reg',
      db := if saveThrows then db else saveCallLog db row,
      writes := [row],
      emits := [updateActiveCallsEmit reg', Emit.callUpdate newCall] }

/-- Legacy combined webhook `POST /webhook` of the older server.js
(src/unnamed/part_001 lines 292-373).  All three of its branches build the
same record - with `monitor` taken straight from the event - and
replace-or-unshift it; `userLookup` is the phone-to-email query result
(`none` covers a failed as well as an empty lookup). -/
def legacyWebhook (ev : CallEvent) (userLookup : Option String) (now : Nat)
    (reg : List CallRecord) : List CallRecord × List Emit :=
  let userEmail := if ev.customerNumber != "" then userLookup.getD "N/A" else "N/A"
  let newCall : CallRecord :=
    { id := ev.id
      direction := ev.direction
      status := ev.status
      user_email := userEmail
      monitor := ev.monitor
      startTime := ev.createdAt.getD now
      endTime := none
      duration := ev.duration.getD 0
      fromNumber := if ev.customerNumber != "" then ev.customerNumber else "N/A"
      customerNumber := ""
      agentId := ""
      assistantId := ""
      notes := "" }
  let reg' := jsUpsertUnshift reg newCall
  (reg', [updateActiveCallsEmit reg', Emit.callUpdate newCall])

/-- Dynamic `event.data.object` as read by the two processing branches of
routes/webhook.js (checkout-session fields and call fields live on the same
untyped object; absent strings are `""`). -/
structure DataObject where
  id : String
  customer_email : String
  subscription : String
  metadataPlan : String
  amount_total : Option Int
  objType : String
  customerNumber : String
  status : String
  createdAt : Option Nat
  duration : Option Int
  agentId : String
deriving DecidableEq

/-- Stripe-style webhook envelope after JSON parsing; `hasCallField` is the
truthiness of `event.call` used by the type fix-up. -/
structure StripeEvent where
  type : String
  id : String
  dataObject : Option DataObject
  hasCallField : Bool
deriving DecidableEq

/-- JavaScript `s.includes(pat)` for a non-empty pattern. -/
def jsIncludes (s pat : String) : Bool := (s.splitOn pat).length != 1

/-- Handler for `POST /webhook` (routes/webhook.js lines 10-115).  Returns
`none` when the handler dies with an uncaught TypeError (the event data
object is missing for the branch it runs), otherwise the response plus the
resulting subscription and call-log tables.  `expiry` stands for the computed
one-month expiry timestamp; `phoneLookup` and `lookupThrows` model the user
query by phone; `subSaveThrows` and `callSaveThrows` model the two
persistence calls rejecting (both are wrapped in try/catch). -/
def stripeWebhook (secretSet sigPresent sigVerifies : Bool) (ev : StripeEvent)
    (expiry now : Nat) (phoneLookup : Option String)
    (lookupThrows subSaveThrows callSaveThrows : Bool)
    (subDb : List SubRow) (callDb : List CallLogRow) :
    Option (WebhookResponse × List SubRow × List CallLogRow) :=
  if !secretSet then some ({ status := 500, received := false }, subDb, callDb)
  else if !sigPresent then some ({ status := 400, received := false }, subDb, callDb)
  else if !sigVerifies then some ({ status := 400, received := false }, subDb, callDb)
  else
    let etype := if ev.type == "" && ev.hasCallField then "call.inbound.completed" else ev.type
    let step1 : Option (List SubRow) :=
      if etype == "checkout.session.completed" then
        match ev.dataObject with
        | none => none
        | some s =>
          let d : SubscriptionData :=
            { email := s.customer_email
              subscriptionId := s.subscription
              plan := if s.metadataPlan != "" then s.metadataPlan else "unknown"
              status := "active"
              price := ((s.amount_total.getD 0 : Int) : Rat) / 100
              stripeEventId := ev.id
              expiryDate := some expiry }
          some (if subSaveThrows then subDb else saveSubscriptionToDb subDb d)
      else some subDb
    match step1 with
    | none => none
    | some subDb' =>
      if etype == "call.inbound.completed" then
        match ev.dataObject with
        | none => none
        | some c =>
          let userEmail :=
            if c.customerNumber != "" then
              (if lookupThrows then "N/A" else phoneLookup.getD "N/A")
            else "N/A"
          let row : CallLogRow :=
            { call_id := c.id
              user_email := userEmail
              direction := if jsIncludes c.objType "inbound" then "inbound" else "outbound"
              phone_number := if c.customerNumber != "" then c.customerNumber else "N/A"
              status := c.status
              start_time := c.createdAt.getD now
              duration := c.duration.getD 0
              agent_id := if c.agentId != "" then some c.agentId else none
              notes := none }
          some ({ status := 200, received := true }, subDb',
            if callSaveThrows then callDb else saveCallLog callDb row)
      else some ({ status := 200, received := true }, subDb', callDb)

/-- Rows of the call-log table carrying a given call id. -/
def callLogCount (db : List CallLogRow) (i : String) : Nat :=
  db.countP (fun r => r.call_id == i)

/-- Subscription rows carrying a given Stripe event id. -/
def subEventCount (db : List SubRow) (e : String) : Nat :=
  db.countP (fun r => r.stripe_event_id == e)

/-- Subscription rows carrying a given email. -/
def subEmailCount (db : List SubRow) (em : String) : Nat :=
  db.countP (fun r => r.email == em)

/-- Control URL currently stored in the registry for a given call id. -/
def regControlUrl (reg : List CallRecord) (i : String) : Option String :=
  match mapGet reg i with
  | some c => c.controlUrlVal
  | none => none

/-- Most-recently-started-first ordering produced by the listing sort. -/
def sortedByStartDesc (l : List CallRecord) : Prop :=
  l.Pairwise (fun a b => b.startTime <= a.startTime)

/-- The record now stored under `j` was published to the subscribers. -/
def recordPublished (reg : List CallRecord) (emits : List Emit) (j : String) : Prop :=
  match mapGet reg j with
  | some c => Emit.callUpdate c ∈ emits
  | none => False

/-- Concrete inbound call record holding a populated control handle. -/
def ringingWithCtrl : CallRecord :=
  { id := "call-1", direction := "inbound", status := "ringing",
    user_email := "N/A",
    monitor := some { controlUrl := some "https://ctrl.example/call-1" },
    startTime := 1000, endTime := none, duration := 0,
    fromNumber := "+15550001", customerNumber := "+15550001",
    agentId := "", assistantId := "", notes := "" }

/-- Webhook event for the same call id carrying no monitor object. -/
def eventNoMonitor : CallEvent :=
  { id := "call-1", direction := "inbound", customerNumber := "+15550001",
    createdAt := some 1000, status := "ongoing", duration := none,
    monitor := none }

/-- Concrete outbound call already in the terminal state "completed". -/
def completedCall : CallRecord :=
  { id := "call-2", direction := "outbound", status := "completed",
    user_email := "owner@example.com", monitor := none,
    startTime := 1000, endTime := none, duration := 0,
    fromNumber := "+15550002", customerNumber := "+15550002",
    agentId := "", assistantId := "", notes := "" }

/-- Concrete queued outbound call without any control handle. -/
def queuedNoCtrl : CallRecord :=
  { id := "call-3", direction := "outbound", status := "queued",
    user_email := "owner@example.com", monitor := none,
    startTime := 1000, endTime := none, duration := 0,
    fromNumber := "+15550003", customerNumber := "+15550003",
    agentId := "", assistantId := "asst-1", notes := "" }

/-- Concrete inbound ringing call with a control handle and a known owner. -/
def ringingOwned : CallRecord :=
  { id := "call-4", direction := "inbound", status := "ringing",
    user_email := "owner@example.com",
    monitor := some { controlUrl := some "https://ctrl.example/call-4" },
    startTime := 1000, endTime := none, duration := 0,
    fromNumber := "+15550004", customerNumber := "+15550004",
    agentId := "", assistantId := "", notes := "" }

/-- Provider response whose status field is already "ringing". -/
def vapiRespRinging : VapiStartResponse :=
  { id := "call-5", status := "ringing", createdAt := some 1000,
    customerNumber := "+15550005", assistantId := "asst-1", monitor := none }

/-- Two-owner registry used to exercise the listing. -/
def callA : CallRecord :=
  { id := "call-6", direction := "outbound", status := "ongoing",
    user_email := "a@x", monitor := none,
    startTime := 1000, endTime := none, duration := 0,
    fromNumber := "+15550006", customerNumber := "+15550006",
    agentId := "", assistantId := "", notes := "" }

/-- Second registry entry owned by a different user, started later. -/
def callB : CallRecord :=
  { id := "call-7", direction := "outbound", status := "completed",
    user_email := "b@x", monitor := none,
    startTime := 2000, endTime := none, duration := 0,
    fromNumber := "+15550007", customerNumber := "+15550007",
    agentId := "", assistantId := "", notes := "" }

/-- Mixed-ownership registry fixture. -/
def regMixed : List CallRecord := [callA, callB]

/-- Inbound webhook body carrying an "ongoing" call event. -/
def bodyOngoing : InboundBody :=
  { dataObject := none, call := some eventNoMonitor }

/-- Data object of a well-formed checkout-session webhook event. -/
def sessionObjW : DataObject :=
  { id := "cs_1", customer_email := "u@x", subscription := "sub_1",
    metadataPlan := "pro", amount_total := some 4900,
    objType := "", customerNumber := "", status := "",
    createdAt := none, duration := none, agentId := "" }

/-- Well-formed signed checkout webhook event. -/
def stripeEventW : StripeEvent :=
  { type := "checkout.session.completed", id := "evt_1",
    dataObject := some sessionObjW, hasCallField := false }

/-- Concrete call-log row used for the idempotence witness. -/
def callRowW : CallLogRow :=
  { call_id := "call-9", user_email := "u@x", direction := "inbound",
    phone_number := "+15550009", status := "completed", start_time := 1000,
    duration := 30, agent_id := none, notes := none }

/-- Concrete subscription payload used for the idempotence witness. -/
def subDataW : SubscriptionData :=
  { email := "u@x", subscriptionId := "sub_1", plan := "pro",
    status := "active", price := 49, stripeEventId := "evt_1",
    expiryDate := some 5000 }

/-! Registry lemmas shared by the claim theorems. -/

theorem find?_id_cons_pos (rs : List CallRecord) {r : CallRecord} {i : String}
    (h : r.id = i) :
    List.find? (fun x => x.id == i) (r :: rs) = some r :=
  List.find?_cons_of_pos _ (by simpa using h)

theorem find?_id_cons_neg (rs : List CallRecord) {r : CallRecord} {i : String}
    (h : r.id ≠ i) :
    List.find? (fun x => x.id == i) (r :: rs) = List.find? (fun x => x.id == i) rs :=
  List.find?_cons_of_neg _ (by simpa using h)

theorem mapGet_eq_some_id {reg : List CallRecord} {i : String} {c : CallRecord}
    (h : mapGet reg i = some c) : c.id = i := by
  have hp := List.find?_some h
  simpa using hp

theorem mem_of_mapGet_eq_some {reg : List CallRecord} {i : String} {c : CallRecord}
    (h : mapGet reg i = some c) : c ∈ reg :=
  List.mem_of_find?_eq_some h

theorem mapGet_replaceFirst_self {reg : List CallRecord} {c : CallRecord}
    (h : reg.any (fun r => r.id == c.id) = true) :
    mapGet (replaceFirstById reg c) c.id = some c := by
  induction reg with
  | nil => simp at h
  | cons r rs ih =>
    by_cases hr : r.id = c.id
    · have hstep : replaceFirstById (r :: rs) c = c :: rs := by
        simp [replaceFirstById, hr]
      rw [hstep]
      exact find?_id_cons_pos _ rfl
    · have hb : (r.id == c.id) = false := by simp [hr]
      have hstep : replaceFirstById (r :: rs) c = r :: replaceFirstById rs c := by
        simp [replaceFirstById, hb]
      rw [hstep]
      show List.find? (fun x => x.id == c.id) (r :: replaceFirstById rs c) = some c
      rw [find?_id_cons_neg _ hr]
      exact ih (by simpa [List.any_cons, hb] using h)

theorem mapGet_replaceFirst_ne {reg : List CallRecord} {c : CallRecord} {i : String}
    (hne : i ≠ c.id) :
    mapGet (replaceFirstById reg c) i = mapGet reg i := by
  induction reg with
  | nil => simp [replaceFirstById]
  | cons r rs ih =>
    by_cases hr : r.id = c.id
    · have hstep : replaceFirstById (r :: rs) c = c :: rs := by
        simp [replaceFirstById, hr]
      rw [hstep]
      show List.find? (fun x => x.id == i) (c :: rs) =
        List.find? (fun x => x.id == i) (r :: rs)
      rw [find?_id_cons_neg _ (fun hh => hne hh.symm),
          find?_id_cons_neg _ (fun hh => hne (hr ▸ hh).symm)]
    · have hb : (r.id == c.id) = false := by simp [hr]
      have hstep : replaceFirstById (r :: rs) c = r :: replaceFirstById rs c := by
        simp [replaceFirstById, hb]
      rw [hstep]
      show List.find? (fun x => x.id == i) (r :: replaceFirstById rs c) =
        List.find? (fun x => x.id == i) (r :: rs)
      by_cases hri : r.id = i
      · rw [find?_id_cons_pos _ hri, find?_id_cons_pos _ hri]
      · rw [find?_id_cons_neg _ hri, find?_id_cons_neg _ hri]
        exact ih

theorem mapGet_mapSet_self (reg : List CallRecord) (c : CallRecord) :
    mapGet (mapSet reg c) c.id = some c := by
  unfold mapSet
  by_cases h : reg.any (fun r => r.id == c.id) = true
  · rw [if_pos h]
    exact mapGet_replaceFirst_self h
  · rw [if_neg h]
    show List.find? (fun x => x.id == c.id) (reg ++ [c]) = some c
    rw [List.find?_append]
    have hnone : reg.find? (fun r => r.id == c.id) = none := by
      rw [List.find?_eq_none]
      intro x hx hpx
      exact h (List.any_eq_true.mpr ⟨x, hx, hpx⟩)
    rw [hnone, Option.none_or]
    exact find?_id_cons_pos _ rfl

theorem mapGet_mapSet_ne (reg : List CallRecord) (c : CallRecord) {i : String}
    (hne : i ≠ c.id) : mapGet (mapSet reg c) i = mapGet reg i := by
  unfold mapSet
  by_cases h : reg.any (fun r => r.id == c.id) = true
  · rw [if_pos h]
    exact mapGet_replaceFirst_ne hne
  · rw [if_neg h]
    show List.find? (fun x => x.id == i) (reg ++ [c]) = mapGet reg i
    rw [List.find?_append]
    have h2 : List.find? (fun x : CallRecord => x.id == i) [c] = none := by
      rw [find?_id_cons_neg _ (fun hh => hne hh.symm)]
      rfl
    rw [h2, Option.or_none]
    rfl

theorem mapGet_jsUpsert_self (reg : List CallRecord) (c : CallRecord) :
    mapGet (jsUpsertUnshift reg c) c.id = some c := by
  unfold jsUpsertUnshift
  by_cases h : reg.any (fun r => r.id == c.id) = true
  · rw [if_pos h]
    exact mapGet_replaceFirst_self h
  · rw [if_neg h]
    exact find?_id_cons_pos _ rfl

theorem mapGet_jsUpsert_ne (reg : List CallRecord) (c : CallRecord) {i : String}
    (hne : i ≠ c.id) : mapGet (jsUpsertUnshift reg c) i = mapGet reg i := by
  unfold jsUpsertUnshift
  by_cases h : reg.any (fun r => r.id == c.id) = true
  · rw [if_pos h]
    exact mapGet_replaceFirst_ne hne
  · rw [if_neg h]
    exact find?_id_cons_neg _ (fun hh => hne hh.symm)

/-- C1: the spec claims a webhook patch that omits the control handle never
resets a populated `monitor.controlUrl`; the code replaces the whole record,
so the handle is lost.  Starting from a registry holding call-1 with a
populated control handle, delivering an event for call-1 that omits the
monitor - via the live inbound webhook route (which stores no monitor field
at all) and via the legacy combined webhook - leaves the record present but
with no control handle. -/
theorem C1_control_handle_reset_by_webhook :
    regControlUrl [ringingWithCtrl] "call-1" = some "https://ctrl.example/call-1" ∧
    (mapGet (inboundWebhook bodyOngoing 2000 false [ringingWithCtrl] []).reg "call-1").isSome = true ∧
    regControlUrl (inboundWebhook bodyOngoing 2000 false [ringingWithCtrl] []).reg "call-1" = none ∧
    (mapGet (legacyWebhook eventNoMonitor none 2000 [ringingWithCtrl]).1 "call-1").isSome = true ∧
    regControlUrl (legacyWebhook eventNoMonitor none 2000 [ringingWithCtrl]).1 "call-1" = none := by
  decide

/-- C3 counterexample: ending a call already in the terminal state
"completed" answers HTTP 200 ("Call already ended"), not the claimed 400;
the record is indeed unchanged and nothing is written. -/
theorem C3_counterexample_end_terminal_is_200 :
    (endCall "owner@example.com" "user" "call-2" true true 5000 [completedCall]).status = 200 ∧
    ¬ (endCall "owner@example.com" "user" "call-2" true true 5000 [completedCall]).status = 400 ∧
    (endCall "owner@example.com" "user" "call-2" true true 5000 [completedCall]).reg = [completedCall] ∧
    (endCall "owner@example.com" "user" "call-2" true true 5000 [completedCall]).writes = [] := by
  decide

/-- C5 counterexample: the start handler stores `response.data.status ||
"queued"`, so when the provider reports "ringing" the new record is not
"queued". -/
theorem C5_counterexample_status_from_provider :
    (mapGet (startCall vapiRespRinging "owner@example.com" 2000 []).reg "call-5").map CallRecord.status = some "ringing" ∧
    ¬ (mapGet (startCall vapiRespRinging "owner@example.com" 2000 []).reg "call-5").map CallRecord.status = some "queued" := by
  decide

/-- C7 counterexample: an answer (or reject) action whose provider dispatch
fails answers 500 and leaves the record untouched - no local completion, no
persistence write - so the claimed fallback exists only for the end action. -/
theorem C7_counterexample_answer_dispatch_failure_500 :
    (answerCall "u@x" "user" "call-1" false [ringingWithCtrl]).status = 500 ∧
    (answerCall "u@x" "user" "call-1" false [ringingWithCtrl]).reg = [ringingWithCtrl] ∧
    (answerCall "u@x" "user" "call-1" false [ringingWithCtrl]).writes = [] ∧
    (rejectCall "u@x" "user" "call-1" false [ringingWithCtrl]).status = 500 ∧
    (rejectCall "u@x" "user" "call-1" false [ringingWithCtrl]).writes = [] ∧
    ¬ (mapGet (answerCall "u@x" "user" "call-1" false [ringingWithCtrl]).reg "call-1").map CallRecord.status = some "completed" := by
  decide

/-- C10 counterexample: a successful outbound start mutates the registry and
publishes the new record, but publishes no recomputed active-call count
(`updateActiveCalls()` is commented out on that path). -/
theorem C10_counterexample_start_emits_no_count :
    (startCall vapiRespRinging "o@x" 0 []).reg = [startRecord vapiRespRinging "o@x" 0] ∧
    (startCall vapiRespRinging "o@x" 0 []).emits = [Emit.callUpdate (startRecord vapiRespRinging "o@x" 0)] ∧
    (startCall vapiRespRinging "o@x" 0 []).emits.countP Emit.isCountEmit = 0 := by
  decide

theorem mapGet_mapSet_of_id (reg : List CallRecord) (x : CallRecord) {i : String}
    (h : x.id = i) : mapGet (mapSet reg x) i = some x :=
  h ▸ mapGet_mapSet_self reg x

/-- C2: ending a call whose record has no control handle - requested by the
record owner from a non-terminal state - marks it "completed", computes the
duration as the elapsed whole seconds from `startTime` to now, and passes
exactly one row (for that call, with status "completed") to the call-log
save; the forbidden-caller and unknown-id branches of the same endpoint
write nothing. -/
theorem C2_end_fallback_single_write (reg : List CallRecord) (c : CallRecord)
    (i e role e2 role2 j : String) (dispatchOk dbOk : Bool) (now : Nat)
    (hget : mapGet reg i = some c)
    (hown : c.user_email = e)
    (hctrl : c.hasControlUrl = false)
    (hnc : c.status ≠ "completed")
    (hnd : c.status ≠ "ended")
    (hstart : c.startTime ≤ now)
    (hother : c.user_email ≠ e2)
    (hrole2 : jsToLower role2 ≠ "admin")
    (hj : mapGet reg j = none) :
    (mapGet (endCall e role i dispatchOk dbOk now reg).reg i).map CallRecord.status = some "completed" ∧
    (mapGet (endCall e role i dispatchOk dbOk now reg).reg i).map CallRecord.duration =
      some (((now - c.startTime) / 1000 : Nat) : Int) ∧
    (endCall e role i dispatchOk dbOk now reg).writes.map CallLogRow.call_id = [i] ∧
    (endCall e role i dispatchOk dbOk now reg).writes.map CallLogRow.status = ["completed"] ∧
    (endCall e role i dispatchOk dbOk now reg).writes.length = 1 ∧
    (endCall e2 role2 i dispatchOk dbOk now reg).writes = [] ∧
    (endCall e role j dispatchOk dbOk now reg).writes = [] := by
  have hid : c.id = i := mapGet_eq_some_id hget
  have h1 : (c.user_email != e && jsToLower role != "admin") = false := by
    simp [hown]
  have h2 : (c.status == "completed" || c.status == "ended") = false := by
    simp [hnc, hnd]
  have h3 : (c.hasControlUrl && dispatchOk) = false := by
    simp [hctrl]
  have h6 : (c.user_email != e2 && jsToLower role2 != "admin") = true := by
    simp [hother, hrole2]
  have hdur : ((now : Int) - (c.startTime : Int)).fdiv 1000 =
      (((now - c.startTime) / 1000 : Nat) : Int) := by
    rw [← Int.ofNat_sub hstart, Int.fdiv_eq_ediv _ (by norm_num)]
    norm_cast
  have hcall : mapGet (endCall e role i dispatchOk dbOk now reg).reg i =
      some { c with status := "completed",
                    duration := ((now : Int) - (c.startTime : Int)).fdiv 1000,
                    endTime := some now } := by
    simp only [endCall, hget, h1, h2, h3]
    simp only [Bool.false_eq_true, if_false]
    exact mapGet_mapSet_of_id _ _ hid
  refine ⟨?_, ?_, ?_, ?_, ?_, ?_, ?_⟩
  · rw [hcall]
    rfl
  · rw [hcall]
    simp [hdur]
  · simp [endCall, hget, h1, h2, h3, hid]
  · simp [endCall, hget, h1, h2, h3]
  · simp [endCall, hget, h1, h2, h3]
  · simp [endCall, hget, h6]
  · simp [endCall, hj]

/-- Witness for C2 at a concrete queued call without a control handle. -/
theorem C2_end_fallback_single_write_witness :
    (mapGet (endCall "owner@example.com" "user" "call-3" true true 5000 [queuedNoCtrl]).reg "call-3").map CallRecord.status = some "completed" ∧
    (mapGet (endCall "owner@example.com" "user" "call-3" true true 5000 [queuedNoCtrl]).reg "call-3").map CallRecord.duration = some (4 : Int) ∧
    (endCall "owner@example.com" "user" "call-3" true true 5000 [queuedNoCtrl]).writes.map CallLogRow.call_id = ["call-3"] ∧
    (endCall "owner@example.com" "user" "call-3" true true 5000 [queuedNoCtrl]).writes.map CallLogRow.status = ["completed"] ∧
    (endCall "owner@example.com" "user" "call-3" true true 5000 [queuedNoCtrl]).writes.length = 1 ∧
    (endCall "intruder@x" "user" "call-3" true true 5000 [queuedNoCtrl]).writes = [] ∧
    (endCall "owner@example.com" "user" "missing-id" true true 5000 [queuedNoCtrl]).writes = [] :=
  C2_end_fallback_single_write [queuedNoCtrl] queuedNoCtrl "call-3" "owner@example.com"
    "user" "intruder@x" "user" "missing-id" true true 5000 (by decide) (by decide)
    (by decide) (by decide) (by decide) (by decide) (by decide) (by decide) (by decide)

/-- C3 (amended): a control action from an invalid source state leaves the
record unchanged and performs no write; answer and reject on a non-ringing
call answer 400, while end on an already-terminal call (by an authorised
caller) answers 200 "Call already ended" rather than the claimed 400. -/
theorem C3_invalid_source_state (reg : List CallRecord) (c : CallRecord)
    (i e role : String) (ok dbOk : Bool) (now : Nat)
    (hget : mapGet reg i = some c) :
    (c.status ≠ "ringing" →
      answerCall e role i ok reg = { status := 400, reg := reg, writes := [], emits := [] } ∧
      rejectCall e role i ok reg = { status := 400, reg := reg, writes := [], emits := [] }) ∧
    ((c.status = "completed" ∨ c.status = "ended") →
      (c.user_email = e ∨ jsToLower role = "admin") →
      endCall e role i ok dbOk now reg = { status := 200, reg := reg, writes := [], emits := [] }) := by
  constructor
  · intro hst
    have hs : (c.status != "ringing") = true := by simpa using hst
    constructor
    · by_cases hd : c.direction = "inbound"
      · have hdb : (c.direction != "inbound") = false := by simp [hd]
        simp [answerCall, hget, hdb, hs]
      · have hdb : (c.direction != "inbound") = true := by simpa using hd
        simp [answerCall, hget, hdb]
    · by_cases hd : c.direction = "inbound"
      · have hdb : (c.direction != "inbound") = false := by simp [hd]
        simp [rejectCall, hget, hdb, hs]
      · have hdb : (c.direction != "inbound") = true := by simpa using hd
        simp [rejectCall, hget, hdb]
  · intro hterm hau
    have h1 : (c.user_email != e && jsToLower role != "admin") = false := by
      rcases hau with h | h <;> simp [h]
    have h2 : (c.status == "completed" || c.status == "ended") = true := by
      rcases hterm with h | h <;> simp [h]
    simp [endCall, hget, h1, h2]

/-- Witness for C3 at the concrete completed call. -/
theorem C3_invalid_source_state_witness :
    (answerCall "x@y" "user" "call-2" true [completedCall] =
       { status := 400, reg := [completedCall], writes := [], emits := [] } ∧
     rejectCall "x@y" "user" "call-2" true [completedCall] =
       { status := 400, reg := [completedCall], writes := [], emits := [] }) ∧
    endCall "owner@example.com" "user" "call-2" true true 5000 [completedCall] =
      { status := 200, reg := [completedCall], writes := [], emits := [] } :=
  ⟨(C3_invalid_source_state [completedCall] completedCall "call-2" "x@y" "user"
      true true 5000 (by decide)).1 (by decide),
   (C3_invalid_source_state [completedCall] completedCall "call-2"
      "owner@example.com" "user" true true 5000 (by decide)).2
      (by decide) (by decide)⟩

theorem callLogCount_save_of_absent (db : List CallLogRow) (d : CallLogRow)
    (h : d.call_id ≠ "") (h0 : callLogCount db d.call_id = 0) :
    callLogCount (saveCallLog db d) d.call_id = 1 := by
  have hb : (d.call_id == "") = false := by simpa using h
  have hall : ∀ r ∈ db, ¬ ((fun r : CallLogRow => r.call_id == d.call_id) r = true) :=
    List.countP_eq_zero.mp h0
  have hany : db.any (fun r => r.call_id == d.call_id) = false :=
    List.any_eq_false.mpr hall
  have h0c : db.countP (fun r => r.call_id == d.call_id) = 0 := h0
  simp [saveCallLog, hb, hany, callLogCount, List.countP_append, h0c]

theorem callLogCount_save_of_present (db : List CallLogRow) (d : CallLogRow)
    (h : d.call_id ≠ "") (h0 : 0 < callLogCount db d.call_id) :
    callLogCount (saveCallLog db d) d.call_id = callLogCount db d.call_id := by
  have hb : (d.call_id == "") = false := by simpa using h
  have hany : db.any (fun r => r.call_id == d.call_id) = true := by
    rcases List.countP_pos_iff.mp h0 with ⟨r, hr, hpr⟩
    exact List.any_eq_true.mpr ⟨r, hr, hpr⟩
  simp only [saveCallLog, hb, Bool.false_eq_true, if_false, hany, if_true, callLogCount]
  rw [List.countP_map]
  apply List.countP_congr
  intro r hr
  by_cases hrc : r.call_id = d.call_id
  · simp [Function.comp, hrc]
  · have hf : (r.call_id == d.call_id) = false := by simpa using hrc
    simp [Function.comp, hf]

theorem subSave_skips_seen_event (db : List SubRow) (d : SubscriptionData)
    (he : d.stripeEventId ≠ "") (hex : 0 < subEventCount db d.stripeEventId) :
    saveSubscriptionToDb db d = db := by
  have hany : db.any (fun r => r.stripe_event_id == d.stripeEventId) = true := by
    rcases List.countP_pos_iff.mp hex with ⟨r, hr, hpr⟩
    exact List.any_eq_true.mpr ⟨r, hr, hpr⟩
  have hne : (d.stripeEventId != "") = true := by simpa using he
  simp [saveSubscriptionToDb, hne, hany]

theorem subEventCount_save_of_new (db : List SubRow) (d : SubscriptionData)
    (h0 : subEventCount db d.stripeEventId = 0)
    (hem : subEmailCount db d.email ≤ 1) :
    subEventCount (saveSubscriptionToDb db d) d.stripeEventId = 1 := by
  have hall : ∀ r ∈ db, ¬ ((fun r : SubRow => r.stripe_event_id == d.stripeEventId) r = true) :=
    List.countP_eq_zero.mp h0
  have hanyev : db.any (fun r => r.stripe_event_id == d.stripeEventId) = false :=
    List.any_eq_false.mpr hall
  have hc1 : (d.stripeEventId != "" &&
      db.any (fun r => r.stripe_event_id == d.stripeEventId)) = false := by
    simp [hanyev]
  by_cases hmail : db.any (fun r => r.email == d.email) = true
  · have hpos : 0 < subEmailCount db d.email := by
      rcases List.any_eq_true.mp hmail with ⟨r, hr, hpr⟩
      exact List.countP_pos_iff.mpr ⟨r, hr, hpr⟩
    have hem1 : subEmailCount db d.email = 1 := le_antisymm hem hpos
    have hcong : subEventCount (saveSubscriptionToDb db d) d.stripeEventId =
        subEmailCount db d.email := by
      simp only [saveSubscriptionToDb, hc1, Bool.false_eq_true, if_false, hmail,
        if_true, subEventCount, subEmailCount]
      rw [List.countP_map]
      apply List.countP_congr
      intro r hr
      by_cases hre : r.email = d.email
      · simp [Function.comp, hre]
      · have hf : (r.email == d.email) = false := by simpa using hre
        have hrev : ¬ (r.stripe_event_id == d.stripeEventId) = true := hall r hr
        simp [Function.comp, hf]
        simpa using hrev
    rw [hcong, hem1]
  · have hmailf : db.any (fun r => r.email == d.email) = false := by
      simpa using hmail
    have h0c : db.countP (fun r : SubRow => r.stripe_event_id == d.stripeEventId) = 0 := h0
    simp [saveSubscriptionToDb, hc1, hmailf, subEventCount, List.countP_append, h0c]

/-- C4: persistence is idempotent under duplicate delivery - saving the same
call-log payload twice leaves exactly one row for that call id (update if a
row exists, else insert), and saving the same subscription payload twice
leaves exactly one row carrying its Stripe event id, the second call being
skipped outright via the stored event id. -/
theorem C4_persistence_idempotent (db : List CallLogRow) (d : CallLogRow)
    (sdb : List SubRow) (s : SubscriptionData)
    (hc : d.call_id ≠ "") (hcount : callLogCount db d.call_id ≤ 1)
    (he : s.stripeEventId ≠ "") (hev : subEventCount sdb s.stripeEventId = 0)
    (hemail : subEmailCount sdb s.email ≤ 1) :
    callLogCount (saveCallLog (saveCallLog db d) d) d.call_id = 1 ∧
    subEventCount (saveSubscriptionToDb (saveSubscriptionToDb sdb s) s) s.stripeEventId = 1 ∧
    saveSubscriptionToDb (saveSubscriptionToDb sdb s) s = saveSubscriptionToDb sdb s := by
  have hfirst : callLogCount (saveCallLog db d) d.call_id = 1 := by
    rcases Nat.le_one_iff_eq_zero_or_eq_one.mp hcount with h0 | h1
    · exact callLogCount_save_of_absent db d hc h0
    · rw [callLogCount_save_of_present db d hc (by omega), h1]
  have hsub1 : subEventCount (saveSubscriptionToDb sdb s) s.stripeEventId = 1 :=
    subEventCount_save_of_new sdb s hev hemail
  have hskip : saveSubscriptionToDb (saveSubscriptionToDb sdb s) s =
      saveSubscriptionToDb sdb s :=
    subSave_skips_seen_event _ s he (by omega)
  refine ⟨?_, ?_, hskip⟩
  · rw [callLogCount_save_of_present _ d hc (by omega), hfirst]
  · rw [hskip, hsub1]

/-- Witness for C4 on empty tables and concrete payloads. -/
theorem C4_persistence_idempotent_witness :
    callLogCount (saveCallLog (saveCallLog [] callRowW) callRowW) "call-9" = 1 ∧
    subEventCount (saveSubscriptionToDb (saveSubscriptionToDb [] subDataW) subDataW) "evt_1" = 1 ∧
    saveSubscriptionToDb (saveSubscriptionToDb [] subDataW) subDataW =
      saveSubscriptionToDb [] subDataW :=
  C4_persistence_idempotent [] callRowW [] subDataW (by decide) (by decide)
    (by decide) (by decide) (by decide)

/-- C5 (amended): after a successful start, the registry holds the new
record under the provider id with direction "outbound", the caller as owner,
and status equal to the provider-reported status - defaulting to "queued"
only when the provider response omits one - and the immediately
following listing contains the record whatever their role. -/
theorem C5_start_then_list (resp : VapiStartResponse) (e role : String)
    (now : Nat) (reg : List CallRecord) :
    mapGet (startCall resp e now reg).reg resp.id = some (startRecord resp e now) ∧
    (startRecord resp e now).direction = "outbound" ∧
    (startRecord resp e now).user_email = e ∧
    (startRecord resp e now).status = (if resp.status == "" then "queued" else resp.status) ∧
    startRecord resp e now ∈ getCalls (startCall resp e now reg).reg e role := by
  have hget : mapGet (startCall resp e now reg).reg resp.id = some (startRecord resp e now) :=
    mapGet_mapSet_of_id reg (startRecord resp e now) rfl
  refine ⟨hget, rfl, rfl, rfl, ?_⟩
  have hmem : startRecord resp e now ∈ (startCall resp e now reg).reg :=
    mem_of_mapGet_eq_some hget
  by_cases hrole : (jsToLower role == "admin") = true
  · simp only [getCalls, hrole, if_true]
    exact List.mem_mergeSort.mpr hmem
  · have hrf : (jsToLower role == "admin") = false := by simpa using hrole
    simp only [getCalls, hrf, Bool.false_eq_true, if_false]
    refine List.mem_filter.mpr ⟨List.mem_mergeSort.mpr hmem, ?_⟩
    simp [startRecord]

/-- C6: the in-memory listing never returns a record of another owner to a
non-admin caller, is ordered most-recently-started first, and gives an admin
caller a permutation of the whole registry in that same sorted order. -/
theorem C6_listing_filter_and_order (reg : List CallRecord) (e role : String) :
    (jsToLower role ≠ "admin" → ∀ c ∈ getCalls reg e role, c.user_email = e) ∧
    sortedByStartDesc (getCalls reg e role) ∧
    (jsToLower role = "admin" → (getCalls reg e role).Perm reg) := by
  have hsorted : (reg.mergeSort (fun a b => decide (b.startTime ≤ a.startTime))).Pairwise
      (fun a b : CallRecord => b.startTime ≤ a.startTime) := by
    have h := @List.sorted_mergeSort CallRecord
      (fun a b => decide (b.startTime ≤ a.startTime))
      (fun a b c hab hbc => by
        simp only [decide_eq_true_eq] at hab hbc ⊢
        omega)
      (fun a b => by
        simp only [Bool.or_eq_true, decide_eq_true_eq]
        omega)
      reg
    exact h.imp (fun hab => by simpa using hab)
  refine ⟨?_, ?_, ?_⟩
  · intro hrole c hc
    have hrf : (jsToLower role == "admin") = false := by simpa using hrole
    simp only [getCalls, hrf, Bool.false_eq_true, if_false] at hc
    have hp := List.of_mem_filter hc
    simpa using hp
  · by_cases hrole : (jsToLower role == "admin") = true
    · simpa only [sortedByStartDesc, getCalls, hrole, if_true] using hsorted
    · have hrf : (jsToLower role == "admin") = false := by simpa using hrole
      simp only [sortedByStartDesc, getCalls, hrf, Bool.false_eq_true, if_false]
      exact List.Pairwise.filter _ hsorted
  · intro hrole
    have hrt : (jsToLower role == "admin") = true := by simpa using hrole
    simp only [getCalls, hrt, if_true]
    exact List.mergeSort_perm reg _

/-- Witness for C6 on a two-owner registry, for a plain user and an admin. -/
theorem C6_listing_filter_and_order_witness :
    callA.user_email = "a@x" ∧
    sortedByStartDesc (getCalls regMixed "a@x" "user") ∧
    (getCalls regMixed "a@x" "Admin").Perm regMixed :=
  ⟨(C6_listing_filter_and_order regMixed "a@x" "user").1 (by decide) callA
      (by
        simp only [getCalls]
        rw [if_neg (by decide)]
        exact List.mem_filter.mpr
          ⟨List.mem_mergeSort.mpr (by simp [regMixed]), by decide⟩),
   (C6_listing_filter_and_order regMixed "a@x" "user").2.1,
   (C6_listing_filter_and_order regMixed "a@x" "Admin").2.2 (by decide)⟩

/-- C7 (amended): when the provider-side dispatch fails, only the end action
falls back to completing the call locally with a single persistence write;
answer and reject surface a 500 error and leave the record and store
untouched. -/
theorem C7_fallback_only_for_end (reg : List CallRecord) (c : CallRecord)
    (i e role : String) (dbOk : Bool) (now : Nat)
    (hget : mapGet reg i = some c)
    (hdir : c.direction = "inbound")
    (hring : c.status = "ringing")
    (hctrl : c.hasControlUrl = true)
    (hown : c.user_email = e) :
    answerCall e role i false reg = { status := 500, reg := reg, writes := [], emits := [] } ∧
    rejectCall e role i false reg = { status := 500, reg := reg, writes := [], emits := [] } ∧
    (mapGet (endCall e role i false dbOk now reg).reg i).map CallRecord.status = some "completed" ∧
    (endCall e role i false dbOk now reg).writes.length = 1 := by
  have hid : c.id = i := mapGet_eq_some_id hget
  have hdb : (c.direction != "inbound") = false := by rw [hdir]; decide
  have hsb : (c.status != "ringing") = false := by rw [hring]; decide
  have hcb : (!c.hasControlUrl) = false := by rw [hctrl]; decide
  have h1 : (c.user_email != e && jsToLower role != "admin") = false := by simp [hown]
  have h2 : (c.status == "completed" || c.status == "ended") = false := by
    rw [hring]; decide
  have h3 : (c.hasControlUrl && false) = false := by simp
  refine ⟨?_, ?_, ?_, ?_⟩
  · simp [answerCall, hget, hdb, hsb, hcb]
  · simp [rejectCall, hget, hdb, hsb, hcb]
  · have hms := mapGet_mapSet_of_id reg
      { c with status := "completed",
               duration := ((now : Int) - (c.startTime : Int)).fdiv 1000,
               endTime := some now } (show _ = i from hid)
    simp [endCall, hget, h1, h2, h3, hms]
  · simp [endCall, hget, h1, h2, h3]

/-- Witness for C7 at a concrete owned ringing inbound call. -/
theorem C7_fallback_only_for_end_witness :
    answerCall "owner@example.com" "user" "call-4" false [ringingOwned] =
      { status := 500, reg := [ringingOwned], writes := [], emits := [] } ∧
    rejectCall "owner@example.com" "user" "call-4" false [ringingOwned] =
      { status := 500, reg := [ringingOwned], writes := [], emits := [] } ∧
    (mapGet (endCall "owner@example.com" "user" "call-4" false true 9000 [ringingOwned]).reg "call-4").map CallRecord.status = some "completed" ∧
    (endCall "owner@example.com" "user" "call-4" false true 9000 [ringingOwned]).writes.length = 1 :=
  C7_fallback_only_for_end [ringingOwned] ringingOwned "call-4" "owner@example.com"
    "user" true 9000 (by decide) (by decide) (by decide) (by decide) (by decide)

/-- C8: ownership is enforced asymmetrically - end answers 403 for a caller
who is neither the owner nor an admin, changing nothing and writing nothing,
while answer and reject ignore the caller identity entirely and never
answer 403. -/
theorem C8_ownership_asymmetry (reg : List CallRecord) (c : CallRecord)
    (i e role e2 role2 : String) (ok dbOk : Bool) (now : Nat)
    (hget : mapGet reg i = some c)
    (hother : c.user_email ≠ e) (hrole : jsToLower role ≠ "admin") :
    endCall e role i ok dbOk now reg = { status := 403, reg := reg, writes := [], emits := [] } ∧
    answerCall e role i ok reg = answerCall e2 role2 i ok reg ∧
    rejectCall e role i ok reg = rejectCall e2 role2 i ok reg ∧
    (answerCall e role i ok reg).status ≠ 403 ∧
    (rejectCall e role i ok reg).status ≠ 403 := by
  have h1 : (c.user_email != e && jsToLower role != "admin") = true := by
    simp [hother, hrole]
  refine ⟨by simp [endCall, hget, h1], rfl, rfl, ?_, ?_⟩
  · simp only [answerCall, hget]
    split_ifs <;> simp
  · simp only [rejectCall, hget]
    split_ifs <;> simp

/-- Witness for C8: an unrelated user cannot end the concrete completed
call but may exercise answer and reject exactly as any other identity. -/
theorem C8_ownership_asymmetry_witness :
    endCall "intruder@x" "user" "call-2" true true 0 [completedCall] =
      { status := 403, reg := [completedCall], writes := [], emits := [] } ∧
    answerCall "intruder@x" "user" "call-2" true [completedCall] =
      answerCall "z@z" "Admin" "call-2" true [completedCall] ∧
    rejectCall "intruder@x" "user" "call-2" true [completedCall] =
      rejectCall "z@z" "Admin" "call-2" true [completedCall] ∧
    (answerCall "intruder@x" "user" "call-2" true [completedCall]).status ≠ 403 ∧
    (rejectCall "intruder@x" "user" "call-2" true [completedCall]).status ≠ 403 :=
  C8_ownership_asymmetry [completedCall] completedCall "call-2" "intruder@x" "user"
    "z@z" "Admin" true true 0 (by decide) (by decide) (by decide)

/-- C9: once the webhook payload is parsed - signature checks passed and the
event object present for the branch that runs - both webhook endpoints
answer 200 with received true, whatever the outcome of the downstream
persistence calls and lookups. -/
theorem C9_webhook_ack_despite_persistence_failure (ev : StripeEvent)
    (expiry now now2 : Nat) (phoneLookup : Option String)
    (lookupThrows subSaveThrows callSaveThrows saveThrows : Bool)
    (subDb : List SubRow) (callDb db2 : List CallLogRow)
    (body : InboundBody) (reg : List CallRecord)
    (hobj : ev.dataObject.isSome = true)
    (hbody : (body.dataObject.or body.call).isSome = true) :
    (stripeWebhook true true true ev expiry now phoneLookup lookupThrows
        subSaveThrows callSaveThrows subDb callDb).map (fun r => r.1) =
      some { status := 200, received := true } ∧
    (inboundWebhook body now2 saveThrows reg db2).resp =
      { status := 200, received := true } := by
  obtain ⟨o, ho⟩ := Option.isSome_iff_exists.mp hobj
  obtain ⟨evc, hevc⟩ := Option.isSome_iff_exists.mp hbody
  constructor
  · simp only [stripeWebhook, ho, Bool.not_true, Bool.false_eq_true, if_false]
    split_ifs <;> simp
  · simp only [inboundWebhook, hevc]

/-- Witness for C9: a well-formed checkout event whose subscription save
throws, and an inbound call event whose call-log save throws, are both
acknowledged with 200 received true. -/
theorem C9_webhook_ack_witness :
    (stripeWebhook true true true stripeEventW 9999 0 none false true true [] []).map
        (fun r => r.1) = some { status := 200, received := true } ∧
    (inboundWebhook bodyOngoing 0 true [] []).resp = { status := 200, received := true } :=
  C9_webhook_ack_despite_persistence_failure stripeEventW 9999 0 0 none false true true
    true [] [] [] bodyOngoing [] (by decide) (by decide)

theorem recordPublished_of_set_cases (reg reg' : List CallRecord) (emits : List Emit)
    (j : String)
    (h : reg' = reg ∨ ∃ c, reg' = mapSet reg c ∧ Emit.callUpdate c ∈ emits)
    (hch : mapGet reg' j ≠ mapGet reg j) :
    recordPublished reg' emits j := by
  rcases h with h | ⟨c, hr, hm⟩
  · exact absurd (by rw [h]) hch
  · subst hr
    by_cases hj : j = c.id
    · subst hj
      unfold recordPublished
      rw [mapGet_mapSet_self]
      exact hm
    · exact absurd (mapGet_mapSet_ne reg c hj) hch

theorem recordPublished_of_upsert_cases (reg reg' : List CallRecord) (emits : List Emit)
    (j : String)
    (h : reg' = reg ∨ ∃ c, reg' = jsUpsertUnshift reg c ∧ Emit.callUpdate c ∈ emits)
    (hch : mapGet reg' j ≠ mapGet reg j) :
    recordPublished reg' emits j := by
  rcases h with h | ⟨c, hr, hm⟩
  · exact absurd (by rw [h]) hch
  · subst hr
    by_cases hj : j = c.id
    · subst hj
      unfold recordPublished
      rw [mapGet_jsUpsert_self]
      exact hm
    · exact absurd (mapGet_jsUpsert_ne reg c hj) hch

theorem startCall_mutation (resp : VapiStartResponse) (e : String) (now : Nat)
    (reg : List CallRecord) :
    (startCall resp e now reg).reg = reg ∨
    ∃ c, (startCall resp e now reg).reg = mapSet reg c ∧
      Emit.callUpdate c ∈ (startCall resp e now reg).emits :=
  Or.inr ⟨startRecord resp e now, rfl, by simp [startCall]⟩

theorem answerCall_mutation (e role i : String) (ok : Bool) (reg : List CallRecord) :
    (answerCall e role i ok reg).reg = reg ∨
    ∃ c, (answerCall e role i ok reg).reg = mapSet reg c ∧
      Emit.callUpdate c ∈ (answerCall e role i ok reg).emits := by
  rcases hres : mapGet reg i with _ | c
  · exact Or.inl (by simp [answerCall, hres])
  · simp only [answerCall, hres]
    split_ifs
    · exact Or.inl rfl
    · exact Or.inl rfl
    · exact Or.inl rfl
    · exact Or.inl rfl
    · exact Or.inr ⟨_, rfl, by simp⟩

theorem rejectCall_mutation (e role i : String) (ok : Bool) (reg : List CallRecord) :
    (rejectCall e role i ok reg).reg = reg ∨
    ∃ c, (rejectCall e role i ok reg).reg = mapSet reg c ∧
      Emit.callUpdate c ∈ (rejectCall e role i ok reg).emits := by
  rcases hres : mapGet reg i with _ | c
  · exact Or.inl (by simp [rejectCall, hres])
  · simp only [rejectCall, hres]
    split_ifs
    · exact Or.inl rfl
    · exact Or.inl rfl
    · exact Or.inl rfl
    · exact Or.inl rfl
    · exact Or.inr ⟨_, rfl, by simp⟩

theorem endCall_mutation (e role i : String) (ok dbOk : Bool) (now : Nat)
    (reg : List CallRecord) :
    (endCall e role i ok dbOk now reg).reg = reg ∨
    ∃ c, (endCall e role i ok dbOk now reg).reg = mapSet reg c ∧
      Emit.callUpdate c ∈ (endCall e role i ok dbOk now reg).emits := by
  rcases hres : mapGet reg i with _ | c
  · exact Or.inl (by simp [endCall, hres])
  · simp only [endCall, hres]
    split_ifs
    all_goals first
      | exact Or.inl rfl
      | exact Or.inr ⟨_, rfl, by simp⟩

theorem inboundWebhook_mutation (body : InboundBody) (now : Nat) (saveThrows : Bool)
    (reg : List CallRecord) (db : List CallLogRow) :
    (inboundWebhook body now saveThrows reg db).reg = reg ∨
    ∃ c, (inboundWebhook body now saveThrows reg db).reg = jsUpsertUnshift reg c ∧
      Emit.callUpdate c ∈ (inboundWebhook body now saveThrows reg db).emits := by
  rcases hres : body.dataObject.or body.call with _ | ev
  · exact Or.inl (by simp [inboundWebhook, hres])
  · simp only [inboundWebhook, hres]
    exact Or.inr ⟨_, rfl, by simp⟩

theorem startCall_count_silent (resp : VapiStartResponse) (e : String) (now : Nat)
    (reg : List CallRecord) :
    (startCall resp e now reg).emits.countP Emit.isCountEmit = 0 := by
  simp [startCall, Emit.isCountEmit]

theorem answerCall_count_silent (e role i : String) (ok : Bool) (reg : List CallRecord) :
    (answerCall e role i ok reg).emits.countP Emit.isCountEmit = 0 := by
  rcases hres : mapGet reg i with _ | c
  · simp [answerCall, hres]
  · simp only [answerCall, hres]
    split_ifs <;> simp [Emit.isCountEmit]

theorem rejectCall_count_silent (e role i : String) (ok : Bool) (reg : List CallRecord) :
    (rejectCall e role i ok reg).emits.countP Emit.isCountEmit = 0 := by
  rcases hres : mapGet reg i with _ | c
  · simp [rejectCall, hres]
  · simp only [rejectCall, hres]
    split_ifs <;> simp [Emit.isCountEmit]

theorem endCall_count_correct (e role i : String) (ok dbOk : Bool) (now : Nat)
    (reg : List CallRecord) (n : Nat)
    (hmem : Emit.activeCalls n ∈ (endCall e role i ok dbOk now reg).emits) :
    n = ongoingCount (endCall e role i ok dbOk now reg).reg := by
  rcases hres : mapGet reg i with _ | c
  · rw [show endCall e role i ok dbOk now reg =
        { status := 404, reg := reg, writes := [], emits := [] } from
        by simp [endCall, hres]] at hmem
    simp at hmem
  · simp only [endCall, hres] at hmem ⊢
    split_ifs at hmem ⊢ <;> simp [updateActiveCallsEmit] at hmem ⊢ <;> exact hmem

theorem inboundWebhook_count_correct (body : InboundBody) (now : Nat)
    (saveThrows : Bool) (reg : List CallRecord) (db : List CallLogRow) (n : Nat)
    (hmem : Emit.activeCalls n ∈ (inboundWebhook body now saveThrows reg db).emits) :
    n = ongoingCount (inboundWebhook body now saveThrows reg db).reg := by
  rcases hres : body.dataObject.or body.call with _ | ev
  · rw [show inboundWebhook body now saveThrows reg db =
        { resp := { status := 400, received := false }, reg := reg, db := db,
          writes := [], emits := [] } from by simp [inboundWebhook, hres]] at hmem
    simp at hmem
  · simp only [inboundWebhook, hres] at hmem ⊢
    simp [updateActiveCallsEmit] at hmem ⊢
    exact hmem

theorem startCall_count_absent (resp : VapiStartResponse) (e : String) (now : Nat)
    (reg : List CallRecord) (n : Nat)
    (hmem : Emit.activeCalls n ∈ (startCall resp e now reg).emits) :
    n = ongoingCount (startCall resp e now reg).reg := by
  simp [startCall] at hmem

theorem answerCall_count_absent (e role i : String) (ok : Bool)
    (reg : List CallRecord) (n : Nat)
    (hmem : Emit.activeCalls n ∈ (answerCall e role i ok reg).emits) :
    n = ongoingCount (answerCall e role i ok reg).reg := by
  rcases hres : mapGet reg i with _ | c
  · simp [answerCall, hres] at hmem
  · simp only [answerCall, hres] at hmem
    split_ifs at hmem <;> simp at hmem

theorem rejectCall_count_absent (e role i : String) (ok : Bool)
    (reg : List CallRecord) (n : Nat)
    (hmem : Emit.activeCalls n ∈ (rejectCall e role i ok reg).emits) :
    n = ongoingCount (rejectCall e role i ok reg).reg := by
  rcases hres : mapGet reg i with _ | c
  · simp [rejectCall, hres] at hmem
  · simp only [rejectCall, hres] at hmem
    split_ifs at hmem <;> simp at hmem

theorem endCall_optimistic_count_silent (e role i : String) (ok dbOk : Bool)
    (now : Nat) (reg : List CallRecord) (c : CallRecord)
    (hget : mapGet reg i = some c)
    (hau : c.user_email = e ∨ jsToLower role = "admin")
    (hnc : c.status ≠ "completed") (hnd : c.status ≠ "ended")
    (hdisp : (c.hasControlUrl && ok) = true) :
    (endCall e role i ok dbOk now reg).emits.countP Emit.isCountEmit = 0 := by
  have h1 : (c.user_email != e && jsToLower role != "admin") = false := by
    rcases hau with h | h <;> simp [h]
  have h2 : (c.status == "completed" || c.status == "ended") = false := by
    simp [hnc, hnd]
  simp [endCall, hget, h1, h2, hdisp, Emit.isCountEmit]

theorem endCall_fallback_count_published (e role i : String) (ok dbOk : Bool)
    (now : Nat) (reg : List CallRecord) (c : CallRecord)
    (hget : mapGet reg i = some c)
    (hau : c.user_email = e ∨ jsToLower role = "admin")
    (hnc : c.status ≠ "completed") (hnd : c.status ≠ "ended")
    (hdisp : (c.hasControlUrl && ok) = false) :
    updateActiveCallsEmit (endCall e role i ok dbOk now reg).reg ∈
      (endCall e role i ok dbOk now reg).emits ∧
    (endCall e role i ok dbOk now reg).emits.countP Emit.isCountEmit = 1 := by
  have h1 : (c.user_email != e && jsToLower role != "admin") = false := by
    rcases hau with h | h <;> simp [h]
  have h2 : (c.status == "completed" || c.status == "ended") = false := by
    simp [hnc, hnd]
  constructor <;>
    simp [endCall, hget, h1, h2, hdisp, updateActiveCallsEmit, Emit.isCountEmit]

theorem inboundWebhook_count_published (body : InboundBody) (now : Nat)
    (saveThrows : Bool) (reg : List CallRecord) (db : List CallLogRow)
    (hbody : (body.dataObject.or body.call).isSome = true) :
    updateActiveCallsEmit (inboundWebhook body now saveThrows reg db).reg ∈
      (inboundWebhook body now saveThrows reg db).emits ∧
    (inboundWebhook body now saveThrows reg db).emits.countP Emit.isCountEmit = 1 := by
  obtain ⟨ev, hev⟩ := Option.isSome_iff_exists.mp hbody
  constructor <;>
    simp [inboundWebhook, hev, updateActiveCallsEmit, Emit.isCountEmit]

/-- C10 (amended): every registry mutation publishes the full updated record
to the subscribers; a recomputed active-call count is also published by the
webhook update and by the local end fallback, but not by outbound start,
answer, or reject (nor by the optimistic end dispatch); and whenever a count
is published it equals the number of records with status "ongoing" in the
registry at that moment. -/
theorem C10_broadcast_record_and_count (resp : VapiStartResponse)
    (e role i j : String) (ok dbOk saveThrows : Bool) (now : Nat)
    (reg : List CallRecord) (body : InboundBody) (db : List CallLogRow) (n : Nat)
    (c : CallRecord) :
    (mapGet (startCall resp e now reg).reg j ≠ mapGet reg j →
      recordPublished (startCall resp e now reg).reg (startCall resp e now reg).emits j) ∧
    (mapGet (answerCall e role i ok reg).reg j ≠ mapGet reg j →
      recordPublished (answerCall e role i ok reg).reg (answerCall e role i ok reg).emits j) ∧
    (mapGet (rejectCall e role i ok reg).reg j ≠ mapGet reg j →
      recordPublished (rejectCall e role i ok reg).reg (rejectCall e role i ok reg).emits j) ∧
    (mapGet (endCall e role i ok dbOk now reg).reg j ≠ mapGet reg j →
      recordPublished (endCall e role i ok dbOk now reg).reg (endCall e role i ok dbOk now reg).emits j) ∧
    (mapGet (inboundWebhook body now saveThrows reg db).reg j ≠ mapGet reg j →
      recordPublished (inboundWebhook body now saveThrows reg db).reg (inboundWebhook body now saveThrows reg db).emits j) ∧
    (Emit.activeCalls n ∈ (startCall resp e now reg).emits →
      n = ongoingCount (startCall resp e now reg).reg) ∧
    (Emit.activeCalls n ∈ (answerCall e role i ok reg).emits →
      n = ongoingCount (answerCall e role i ok reg).reg) ∧
    (Emit.activeCalls n ∈ (rejectCall e role i ok reg).emits →
      n = ongoingCount (rejectCall e role i ok reg).reg) ∧
    (Emit.activeCalls n ∈ (endCall e role i ok dbOk now reg).emits →
      n = ongoingCount (endCall e role i ok dbOk now reg).reg) ∧
    (Emit.activeCalls n ∈ (inboundWebhook body now saveThrows reg db).emits →
      n = ongoingCount (inboundWebhook body now saveThrows reg db).reg) ∧
    (startCall resp e now reg).emits.countP Emit.isCountEmit = 0 ∧
    (answerCall e role i ok reg).emits.countP Emit.isCountEmit = 0 ∧
    (rejectCall e role i ok reg).emits.countP Emit.isCountEmit = 0 ∧
    (mapGet reg i = some c →
      (c.user_email = e ∨ jsToLower role = "admin") →
      c.status ≠ "completed" → c.status ≠ "ended" →
      (c.hasControlUrl && ok) = true →
      (endCall e role i ok dbOk now reg).emits.countP Emit.isCountEmit = 0) ∧
    (mapGet reg i = some c →
      (c.user_email = e ∨ jsToLower role = "admin") →
      c.status ≠ "completed" → c.status ≠ "ended" →
      (c.hasControlUrl && ok) = false →
      updateActiveCallsEmit (endCall e role i ok dbOk now reg).reg ∈
        (endCall e role i ok dbOk now reg).emits ∧
      (endCall e role i ok dbOk now reg).emits.countP Emit.isCountEmit = 1) ∧
    ((body.dataObject.or body.call).isSome = true →
      updateActiveCallsEmit (inboundWebhook body now saveThrows reg db).reg ∈
        (inboundWebhook body now saveThrows reg db).emits ∧
      (inboundWebhook body now saveThrows reg db).emits.countP Emit.isCountEmit = 1) :=
  ⟨fun hch => recordPublished_of_set_cases reg _ _ j (startCall_mutation resp e now reg) hch,
   fun hch => recordPublished_of_set_cases reg _ _ j (answerCall_mutation e role i ok reg) hch,
   fun hch => recordPublished_of_set_cases reg _ _ j (rejectCall_mutation e role i ok reg) hch,
   fun hch => recordPublished_of_set_cases reg _ _ j (endCall_mutation e role i ok dbOk now reg) hch,
   fun hch => recordPublished_of_upsert_cases reg _ _ j (inboundWebhook_mutation body now saveThrows reg db) hch,
   startCall_count_absent resp e now reg n,
   answerCall_count_absent e role i ok reg n,
   rejectCall_count_absent e role i ok reg n,
   endCall_count_correct e role i ok dbOk now reg n,
   inboundWebhook_count_correct body now saveThrows reg db n,
   startCall_count_silent resp e now reg,
   answerCall_count_silent e role i ok reg,
   rejectCall_count_silent e role i ok reg,
   fun hget hau hnc hnd hdisp =>
     endCall_optimistic_count_silent e role i ok dbOk now reg c hget hau hnc hnd hdisp,
   fun hget hau hnc hnd hdisp =>
     endCall_fallback_count_published e role i ok dbOk now reg c hget hau hnc hnd hdisp,
   fun hbody => inboundWebhook_count_published body now saveThrows reg db hbody⟩

/-- Witness for C10: an inbound webhook on a one-record registry publishes
the updated record and exactly one count equal to the ongoing records; on a
concrete owned ringing call, the optimistic end dispatch publishes no count
while the end fallback publishes exactly one freshly recomputed count. -/
theorem C10_broadcast_record_and_count_witness :
    recordPublished (inboundWebhook bodyOngoing 0 false [ringingWithCtrl] []).reg
      (inboundWebhook bodyOngoing 0 false [ringingWithCtrl] []).emits "call-1" ∧
    1 = ongoingCount (inboundWebhook bodyOngoing 0 false [ringingWithCtrl] []).reg ∧
    (endCall "owner@example.com" "user" "call-4" true true 0 [ringingOwned]).emits.countP
      Emit.isCountEmit = 0 ∧
    (updateActiveCallsEmit (endCall "owner@example.com" "user" "call-4" false true 0 [ringingOwned]).reg ∈
        (endCall "owner@example.com" "user" "call-4" false true 0 [ringingOwned]).emits ∧
      (endCall "owner@example.com" "user" "call-4" false true 0 [ringingOwned]).emits.countP
        Emit.isCountEmit = 1) ∧
    (updateActiveCallsEmit (inboundWebhook bodyOngoing 0 false [ringingWithCtrl] []).reg ∈
        (inboundWebhook bodyOngoing 0 false [ringingWithCtrl] []).emits ∧
      (inboundWebhook bodyOngoing 0 false [ringingWithCtrl] []).emits.countP
        Emit.isCountEmit = 1) :=
  ⟨(C10_broadcast_record_and_count vapiRespRinging "o@x" "user" "call-1" "call-1"
      true true false 0 [ringingWithCtrl] bodyOngoing [] 1 ringingWithCtrl).2.2.2.2.1
      (by decide),
   (C10_broadcast_record_and_count vapiRespRinging "o@x" "user" "call-1" "call-1"
      true true false 0 [ringingWithCtrl] bodyOngoing [] 1
      ringingWithCtrl).2.2.2.2.2.2.2.2.2.1 (by decide),
   (C10_broadcast_record_and_count vapiRespRinging "owner@example.com" "user" "call-4"
      "x" true true false 0 [ringingOwned] bodyOngoing [] 0
      ringingOwned).2.2.2.2.2.2.2.2.2.2.2.2.2.1 (by decide) (by decide) (by decide)
      (by decide) (by decide),
   (C10_broadcast_record_and_count vapiRespRinging "owner@example.com" "user" "call-4"
      "x" false true false 0 [ringingOwned] bodyOngoing [] 0
      ringingOwned).2.2.2.2.2.2.2.2.2.2.2.2.2.2.1 (by decide) (by decide) (by decide)
      (by decide) (by decide),
   (C10_broadcast_record_and_count vapiRespRinging "o@x" "user" "call-1" "call-1"
      true true false 0 [ringingWithCtrl] bodyOngoing [] 1
      ringingWithCtrl).2.2.2.2.2.2.2.2.2.2.2.2.2.2.2 (by decide)⟩
